import Mathlib

/-!
Verification of the typed mouse-event dispatch core of the orbtk fragment
(`src/crates/api/src/event/mouse.rs`).

Coordinates are embedded as rationals (`ℚ`): the source's `f64` arithmetic here
is limited to comparisons, addition and halving, which the development treats
exactly.  External collaborators of the fragment (the geometry primitives
`Point` and `Rectangle`, the type-erased `EventBox`, the `Widget` trait's
`insert_handler`, and the shell's `MouseButton`) are not part of the fragment's
source; they are modelled from the specification's description of their
contracts and marked as such in their doc comments.
-/

/-- Modelled from the spec: the shell crate's `MouseButton` enumeration, an
opaque button identifier carried by mouse events. -/
inductive MouseButton : Type
| left : MouseButton
| middle : MouseButton
| right : MouseButton
deriving DecidableEq, Repr

/-- Modelled from the spec: the geometry primitive `Point {x, y}` from the
external utils crate. -/
structure Point : Type where
x : ℚ
y : ℚ
deriving DecidableEq, Repr

/-- Source: `Point::new(x, y)`. -/
def Point.new (x y : ℚ) : Point := ⟨x, y⟩

/-- Modelled from the spec: the geometry primitive `Rectangle` from the
external utils crate, a rectangle given by its origin `(x, y)` and its
`width`/`height`. -/
structure Rectangle : Type where
x : ℚ
y : ℚ
width : ℚ
height : ℚ
deriving DecidableEq, Repr

/-- Source: `Rectangle::new(x, y, width, height)`. -/
def Rectangle.new (x y width height : ℚ) : Rectangle := ⟨x, y, width, height⟩

/-- Source: `Rectangle::set_x`. -/
def Rectangle.set_x (r : Rectangle) (x : ℚ) : Rectangle := { r with x := x }

/-- Source: `Rectangle::set_y`. -/
def Rectangle.set_y (r : Rectangle) (y : ℚ) : Rectangle := { r with y := y }

/-- Modelled from the spec: `Rectangle::contains` of the external geometry
library — containment of a point in the rectangle, with all four edges
inclusive (the standard containment semantics the spec assumes; a rectangle
with negative width or height contains no point). -/
def Rectangle.contains (r : Rectangle) (p : ℚ × ℚ) : Bool :=
decide (r.x ≤ p.1) && decide (p.1 ≤ r.x + r.width) &&
  decide (r.y ≤ p.2) && decide (p.2 ≤ r.y + r.height)

/-- Modelled from the spec: the read-only widget snapshot a
`WidgetContainer` exposes through `get::<T>(name)` — the three attributes
`check_mouse_condition` reads. -/
structure WidgetContainer : Type where
enabled : Bool
bounds : Rectangle
position : Point
deriving DecidableEq, Repr

/-- Source: `check_mouse_condition` (src/crates/api/src/event/mouse.rs, lines 11-27):
checks if the given point is inside of a widget. -/
def check_mouse_condition (mouse_position : Point) (widget : WidgetContainer) : Bool :=
let enabled := widget.enabled
if !enabled then
  false
else
  let bounds := widget.bounds
  let position := widget.position
  let rect := Rectangle.new 0 0 bounds.width bounds.height
  let rect := rect.set_x position.x
  let rect := rect.set_y position.y
  rect.contains (mouse_position.x, mouse_position.y)

example : check_mouse_condition (Point.new 50 30)
    ⟨true, Rectangle.new 0 0 100 50, Point.new 10 10⟩ = true := by
  norm_num [check_mouse_condition, Rectangle.new, Rectangle.set_x, Rectangle.set_y,
    Rectangle.contains, Point.new]

example : check_mouse_condition (Point.new 200 30)
    ⟨true, Rectangle.new 0 0 100 50, Point.new 10 10⟩ = false := by
  norm_num [check_mouse_condition, Rectangle.new, Rectangle.set_x, Rectangle.set_y,
    Rectangle.contains, Point.new]

example : check_mouse_condition (Point.new 50 30)
    ⟨false, Rectangle.new 0 0 100 50, Point.new 10 10⟩ = false := by
  norm_num [check_mouse_condition]

/-- Source: `MouseMoveEvent` indicates if the mouse position is changed on the window
(mouse.rs, lines 30-37). -/
structure MouseMoveEvent : Type where
x : ℚ
y : ℚ
deriving DecidableEq, Repr

/-- Source: `ScrollEvent` occurs when the mouse wheel is moved (mouse.rs, lines 40-44). -/
structure ScrollEvent : Type where
delta : Point
deriving DecidableEq, Repr

/-- Source: `Mouse` represents the current mouse state of an mouse event
(mouse.rs, lines 47-57). -/
structure Mouse : Type where
button : MouseButton
x : ℚ
y : ℚ
deriving DecidableEq, Repr

/-- Source: `MouseUpEvent` occurs when a mouse button is released (mouse.rs, lines 60-70). -/
structure MouseUpEvent : Type where
button : MouseButton
x : ℚ
y : ℚ
deriving DecidableEq, Repr

/-- Source: `ClickEvent` occurs when a user clicked on an element (mouse.rs, lines 73-77). -/
structure ClickEvent : Type where
position : Point
deriving DecidableEq, Repr

/-- Source: `MouseDownEvent` occurs when a mouse button is pressed (mouse.rs, lines 80-90). -/
structure MouseDownEvent : Type where
button : MouseButton
x : ℚ
y : ℚ
deriving DecidableEq, Repr

/-- Source: `GlobalMouseUpEvent` occurs when a mouse button is released; global events
could not be handled and could be read on each state (mouse.rs, lines 95-105). -/
structure GlobalMouseUpEvent : Type where
button : MouseButton
x : ℚ
y : ℚ
deriving DecidableEq, Repr

/-- The runtime type tag of an event payload: one tag per `#[derive(Event)]`
payload type of the fragment. -/
inductive EventType : Type
| mouseMove : EventType
| scroll : EventType
| mouseUp : EventType
| click : EventType
| mouseDown : EventType
| globalMouseUp : EventType
deriving DecidableEq, Repr

/-- Modelled from the spec: the Typed Event Container (`EventBox`), a
type-erased box holding exactly one event payload together with its runtime
type information, rendered as the closed tagged union of the fragment's six
payload types (the reimplementation the spec's design notes prescribe). -/
inductive EventBox : Type
| mouseMove (event : MouseMoveEvent) : EventBox
| scroll (event : ScrollEvent) : EventBox
| mouseUp (event : MouseUpEvent) : EventBox
| click (event : ClickEvent) : EventBox
| mouseDown (event : MouseDownEvent) : EventBox
| globalMouseUp (event : GlobalMouseUpEvent) : EventBox
deriving DecidableEq, Repr

/-- The runtime type tag of the payload stored in an `EventBox`. -/
def EventBox.typeOf : EventBox → EventType
| EventBox.mouseMove _ => EventType.mouseMove
| EventBox.scroll _ => EventType.scroll
| EventBox.mouseUp _ => EventType.mouseUp
| EventBox.click _ => EventType.click
| EventBox.mouseDown _ => EventType.mouseDown
| EventBox.globalMouseUp _ => EventType.globalMouseUp

/-- Modelled from the spec: `EventBox::is_type::<T>()` — true iff the stored
payload's variant tag corresponds to `T` (here: to the tag `t`). -/
def EventBox.is_type (event : EventBox) (t : EventType) : Bool :=
decide (event.typeOf = t)

/-- Modelled from the spec: the recoverable, local error with which
`EventBox::downcast_ref` fails on a type mismatch. -/
inductive DowncastError : Type
| wrongType : DowncastError
deriving DecidableEq, Repr

/-- Modelled from the spec: `EventBox::downcast_ref::<MouseMoveEvent>()`. -/
def EventBox.downcast_ref_mouse_move : EventBox → Except DowncastError MouseMoveEvent
| EventBox.mouseMove event => Except.ok event
| _ => Except.error DowncastError.wrongType

/-- Modelled from the spec: `EventBox::downcast_ref::<ScrollEvent>()`. -/
def EventBox.downcast_ref_scroll : EventBox → Except DowncastError ScrollEvent
| EventBox.scroll event => Except.ok event
| _ => Except.error DowncastError.wrongType

/-- Modelled from the spec: `EventBox::downcast_ref::<MouseUpEvent>()`. -/
def EventBox.downcast_ref_mouse_up : EventBox → Except DowncastError MouseUpEvent
| EventBox.mouseUp event => Except.ok event
| _ => Except.error DowncastError.wrongType

/-- Modelled from the spec: `EventBox::downcast_ref::<ClickEvent>()`. -/
def EventBox.downcast_ref_click : EventBox → Except DowncastError ClickEvent
| EventBox.click event => Except.ok event
| _ => Except.error DowncastError.wrongType

/-- Modelled from the spec: `EventBox::downcast_ref::<MouseDownEvent>()`. -/
def EventBox.downcast_ref_mouse_down : EventBox → Except DowncastError MouseDownEvent
| EventBox.mouseDown event => Except.ok event
| _ => Except.error DowncastError.wrongType

/-- Modelled from the spec: `EventBox::downcast_ref::<GlobalMouseUpEvent>()`. -/
def EventBox.downcast_ref_global_mouse_up : EventBox → Except DowncastError GlobalMouseUpEvent
| EventBox.globalMouseUp event => Except.ok event
| _ => Except.error DowncastError.wrongType

/-- The mouse handler function type `MouseHandlerFunction`
(`Fn(&mut StatesContext, Mouse) -> bool`), with the opaque `StatesContext`
rendered as an arbitrary state type `S` threaded explicitly: the callback
receives the state and the `Mouse` value and yields the updated state and its
boolean result (mouse.rs, line 108). -/
def MouseHandlerFunction (S : Type) : Type := S → Mouse → S × Bool

/-- The position based handler function type `PositionHandlerFunction`
(`Fn(&mut StatesContext, Point) -> bool`), state threaded explicitly
(mouse.rs, line 111). -/
def PositionHandlerFunction (S : Type) : Type := S → Point → S × Bool

/-- The global mouse handler function type `GlobalMouseHandlerFunction`
(`Fn(&mut StatesContext, Mouse)` — no boolean result), state threaded
explicitly (mouse.rs, line 114). -/
def GlobalMouseHandlerFunction (S : Type) : Type := S → Mouse → S

/-- Source: `ClickEventHandler`: used to handle click events; owns the user callback
(mouse.rs, lines 117-119). -/
structure ClickEventHandler (S : Type) : Type where
handler : PositionHandlerFunction S

/-- Source: `ClickEventHandler::handle_event` (mouse.rs, lines 128-133): downcast to
`ClickEvent`, on success invoke the callback with the event's position, on
failure return `false` — the state is returned alongside the boolean because
the embedding threads `StatesContext` explicitly. -/
def ClickEventHandler.handle_event {S : Type} (self : ClickEventHandler S)
    (state_context : S) (event : EventBox) : S × Bool :=
match (EventBox.downcast_ref_click event).toOption with
| none => (state_context, false)
| some event => self.handler state_context event.position

/-- Source: `ClickEventHandler::handles_event` (mouse.rs, lines 135-137). -/
def ClickEventHandler.handles_event {S : Type} (_self : ClickEventHandler S)
    (event : EventBox) : Bool :=
event.is_type EventType.click

/-- Source: `MouseDownEventHandler`: used to handle mouse down events
(mouse.rs, lines 142-144). -/
structure MouseDownEventHandler (S : Type) : Type where
handler : MouseHandlerFunction S

/-- Source: `MouseDownEventHandler::handle_event` (mouse.rs, lines 147-154). -/
def MouseDownEventHandler.handle_event {S : Type} (self : MouseDownEventHandler S)
    (state_context : S) (event : EventBox) : S × Bool :=
match (EventBox.downcast_ref_mouse_down event).toOption with
| none => (state_context, false)
| some event => self.handler state_context ⟨event.button, event.x, event.y⟩

/-- Source: `MouseDownEventHandler::handles_event` (mouse.rs, lines 156-158). -/
def MouseDownEventHandler.handles_event {S : Type} (_self : MouseDownEventHandler S)
    (event : EventBox) : Bool :=
event.is_type EventType.mouseDown

/-- Source: `GlobalMouseUpEventHandler`: event handler for a global mouse up event;
global mouse up events could not be handled (mouse.rs, lines 163-165). -/
structure GlobalMouseUpEventHandler (S : Type) : Type where
handler : GlobalMouseHandlerFunction S

/-- Source: `GlobalMouseUpEventHandler::handle_event` (mouse.rs, lines 168-176): on a
successful downcast the callback is invoked for its state effect and the
handler returns `false` unconditionally. -/
def GlobalMouseUpEventHandler.handle_event {S : Type} (self : GlobalMouseUpEventHandler S)
    (state_context : S) (event : EventBox) : S × Bool :=
match (EventBox.downcast_ref_global_mouse_up event).toOption with
| none => (state_context, false)
| some event => (self.handler state_context ⟨event.button, event.x, event.y⟩, false)

/-- Source: `GlobalMouseUpEventHandler::handles_event` (mouse.rs, lines 178-180). -/
def GlobalMouseUpEventHandler.handles_event {S : Type} (_self : GlobalMouseUpEventHandler S)
    (event : EventBox) : Bool :=
event.is_type EventType.globalMouseUp

/-- Source: `MouseUpEventHandler` (mouse.rs, lines 185-187). -/
structure MouseUpEventHandler (S : Type) : Type where
handler : MouseHandlerFunction S

/-- Source: `MouseUpEventHandler::handle_event` (mouse.rs, lines 190-197). -/
def MouseUpEventHandler.handle_event {S : Type} (self : MouseUpEventHandler S)
    (state_context : S) (event : EventBox) : S × Bool :=
match (EventBox.downcast_ref_mouse_up event).toOption with
| none => (state_context, false)
| some event => self.handler state_context ⟨event.button, event.x, event.y⟩

/-- Source: `MouseUpEventHandler::handles_event` (mouse.rs, lines 199-201). -/
def MouseUpEventHandler.handles_event {S : Type} (_self : MouseUpEventHandler S)
    (event : EventBox) : Bool :=
event.is_type EventType.mouseUp

/-- Source: `MouseMoveEventHandler` (mouse.rs, lines 206-208). -/
structure MouseMoveEventHandler (S : Type) : Type where
handler : PositionHandlerFunction S

/-- Source: `MouseMoveEventHandler::handle_event` (mouse.rs, lines 211-218). -/
def MouseMoveEventHandler.handle_event {S : Type} (self : MouseMoveEventHandler S)
    (state_context : S) (event : EventBox) : S × Bool :=
match (EventBox.downcast_ref_mouse_move event).toOption with
| none => (state_context, false)
| some event => self.handler state_context (Point.new event.x event.y)

/-- Source: `MouseMoveEventHandler::handles_event` (mouse.rs, lines 220-222). -/
def MouseMoveEventHandler.handles_event {S : Type} (_self : MouseMoveEventHandler S)
    (event : EventBox) : Bool :=
event.is_type EventType.mouseMove

/-- Source: `ScrollEventHandler`: used to handle scroll events (mouse.rs, lines 227-229). -/
structure ScrollEventHandler (S : Type) : Type where
handler : PositionHandlerFunction S

/-- Source: `ScrollEventHandler::handle_event` (mouse.rs, lines 232-239). -/
def ScrollEventHandler.handle_event {S : Type} (self : ScrollEventHandler S)
    (state_context : S) (event : EventBox) : S × Bool :=
match (EventBox.downcast_ref_scroll event).toOption with
| none => (state_context, false)
| some event => self.handler state_context (Point.new event.delta.x event.delta.y)

/-- Source: `ScrollEventHandler::handles_event` (mouse.rs, lines 241-243). -/
def ScrollEventHandler.handles_event {S : Type} (_self : ScrollEventHandler S)
    (event : EventBox) : Bool :=
event.is_type EventType.scroll

/-- The closed union of the fragment's six `EventHandler` trait objects, the
shape in which a handler is stored in a widget's handler set. -/
inductive EventHandlerImpl (S : Type) : Type
| click (h : ClickEventHandler S) : EventHandlerImpl S
| mouseDown (h : MouseDownEventHandler S) : EventHandlerImpl S
| mouseUp (h : MouseUpEventHandler S) : EventHandlerImpl S
| globalMouseUp (h : GlobalMouseUpEventHandler S) : EventHandlerImpl S
| mouseMove (h : MouseMoveEventHandler S) : EventHandlerImpl S
| scroll (h : ScrollEventHandler S) : EventHandlerImpl S

/-- Modelled from the spec: a widget as the `MouseHandler` facade sees it — an
opaque widget value of type `B` (the out-of-scope widget state) together with
its attached handler set. -/
structure Widget (S B : Type) : Type where
base : B
handlers : List (EventHandlerImpl S)

/-- Modelled from the spec: the external `Widget` trait's `insert_handler` —
attaches the given handler to the widget's handler set and returns the widget
for chaining; it has no failure path. -/
def Widget.insert_handler {S B : Type} (self : Widget S B) (h : EventHandlerImpl S) :
    Widget S B :=
{ self with handlers := self.handlers ++ [h] }

/-- Source: `MouseHandler::on_click` (mouse.rs, lines 248-252): inserts a click handler. -/
def MouseHandler.on_click {S B : Type} (self : Widget S B)
    (handler : S → Point → S × Bool) : Widget S B :=
self.insert_handler (EventHandlerImpl.click { handler := handler })

/-- Source: `MouseHandler::on_mouse_down` (mouse.rs, lines 255-259): insert a mouse
down handler. -/
def MouseHandler.on_mouse_down {S B : Type} (self : Widget S B)
    (handler : S → Mouse → S × Bool) : Widget S B :=
self.insert_handler (EventHandlerImpl.mouseDown { handler := handler })

/-- Source: `MouseHandler::on_mouse_up` (mouse.rs, lines 262-266): insert a mouse up
handler. -/
def MouseHandler.on_mouse_up {S B : Type} (self : Widget S B)
    (handler : S → Mouse → S × Bool) : Widget S B :=
self.insert_handler (EventHandlerImpl.mouseUp { handler := handler })

/-- Source: `MouseHandler::on_global_mouse_up` (mouse.rs, lines 269-273): insert a
mouse handler for global up event. -/
def MouseHandler.on_global_mouse_up {S B : Type} (self : Widget S B)
    (handler : S → Mouse → S) : Widget S B :=
self.insert_handler (EventHandlerImpl.globalMouseUp { handler := handler })

/-- Source: `MouseHandler::on_mouse_move` (mouse.rs, lines 276-280): insert a mouse
move handler. -/
def MouseHandler.on_mouse_move {S B : Type} (self : Widget S B)
    (handler : S → Point → S × Bool) : Widget S B :=
self.insert_handler (EventHandlerImpl.mouseMove { handler := handler })

/-- Source: `MouseHandler::on_scroll` (mouse.rs, lines 283-287): insert a scroll
handler. -/
def MouseHandler.on_scroll {S B : Type} (self : Widget S B)
    (handler : S → Point → S × Bool) : Widget S B :=
self.insert_handler (EventHandlerImpl.scroll { handler := handler })

/-- C1: for every state, callback and `GlobalMouseUpEvent` payload,
`GlobalMouseUpEventHandler.handle_event` invokes the stored user callback
exactly once — the resulting state is exactly one application of the callback
to `Mouse {button, x, y}` — and returns `false`; and for every container
whatsoever its boolean result is `false`, regardless of what the callback
does. -/
theorem c1_global_mouse_up_handle_event (S : Type) (f : GlobalMouseHandlerFunction S)
    (ctx : S) (p : GlobalMouseUpEvent) (box : EventBox) :
    GlobalMouseUpEventHandler.handle_event ⟨f⟩ ctx (EventBox.globalMouseUp p) =
      (f ctx ⟨p.button, p.x, p.y⟩, false) ∧
    (GlobalMouseUpEventHandler.handle_event ⟨f⟩ ctx box).2 = false := by
  refine ⟨rfl, ?_⟩
  cases box <;> rfl

/-- C2: `check_mouse_condition` returns `true` iff the widget is enabled and
the point lies within the rectangle whose width and height are those of the
widget's bounds and whose origin is the widget's position; in particular a
disabled widget yields `false` for every point. -/
theorem c2_check_mouse_condition_iff (p : Point) (w : WidgetContainer) :
    (check_mouse_condition p w = true ↔
      (w.enabled = true ∧
        (Rectangle.new w.position.x w.position.y w.bounds.width w.bounds.height).contains
          (p.x, p.y) = true)) ∧
    (w.enabled = false → check_mouse_condition p w = false) := by
  unfold check_mouse_condition Rectangle.new Rectangle.set_x Rectangle.set_y
  cases hw : w.enabled <;> simp [hw]

theorem c2_check_mouse_condition_iff_witness :
    check_mouse_condition (Point.new 50 30)
      ⟨false, Rectangle.new 0 0 100 50, Point.new 10 10⟩ = false :=
  (c2_check_mouse_condition_iff (Point.new 50 30)
    ⟨false, Rectangle.new 0 0 100 50, Point.new 10 10⟩).2 rfl

/-- C9: when `enabled` is `false`, `check_mouse_condition` is independent of
the bounds and position attributes — any two disabled widget snapshots yield
the same result, namely `false`, for every point. -/
theorem c9_disabled_independent_of_geometry (p : Point) (w1 w2 : WidgetContainer)
    (h1 : w1.enabled = false) (h2 : w2.enabled = false) :
    check_mouse_condition p w1 = check_mouse_condition p w2 ∧
    check_mouse_condition p w1 = false := by
  unfold check_mouse_condition
  simp [h1, h2]

theorem c9_disabled_independent_of_geometry_witness :
    check_mouse_condition (Point.new 1 2) ⟨false, Rectangle.new 0 0 5 5, Point.new 0 0⟩ =
      check_mouse_condition (Point.new 1 2)
        ⟨false, Rectangle.new 3 4 100 200, Point.new 7 8⟩ ∧
    check_mouse_condition (Point.new 1 2) ⟨false, Rectangle.new 0 0 5 5, Point.new 0 0⟩ =
      false :=
  c9_disabled_independent_of_geometry (Point.new 1 2)
    ⟨false, Rectangle.new 0 0 5 5, Point.new 0 0⟩
    ⟨false, Rectangle.new 3 4 100 200, Point.new 7 8⟩ rfl rfl

/-- C8 fails as stated: for the enabled widget at position `(0, 0)` whose
bounds have width `-2` and height `0`, the center point
`(px + w/2, py + h/2) = (-1, 0)` does not satisfy `check_mouse_condition` —
negative-size bounds contain no point at all, including their center. -/
theorem c8_center_counterexample :
    ¬ (check_mouse_condition
        (Point.new ((0:ℚ) + (-2) / 2) ((0:ℚ) + 0 / 2))
        ⟨true, Rectangle.new 0 0 (-2) 0, Point.new 0 0⟩ = true) := by
  norm_num [check_mouse_condition, Rectangle.new, Rectangle.set_x, Rectangle.set_y,
    Rectangle.contains, Point.new]

/-- C8 (amended: bounds of nonnegative width and height): for every enabled
widget whose bounds have width `w ≥ 0` and height `h ≥ 0` at position
`(px, py)`, `check_mouse_condition` returns `true` at the center point
`(px + w/2, py + h/2)` and `false` at `(px - 1, py - 1)`. -/
theorem c8_center_in_corner_out (w : WidgetContainer) (he : w.enabled = true)
    (hw : 0 ≤ w.bounds.width) (hh : 0 ≤ w.bounds.height) :
    check_mouse_condition
      (Point.new (w.position.x + w.bounds.width / 2)
        (w.position.y + w.bounds.height / 2)) w = true ∧
    check_mouse_condition (Point.new (w.position.x - 1) (w.position.y - 1)) w = false := by
  unfold check_mouse_condition Rectangle.new Rectangle.set_x Rectangle.set_y
    Rectangle.contains Point.new
  rw [he]
  simp only [Bool.not_true, Bool.false_eq_true, if_false, Bool.and_eq_true,
    decide_eq_true_eq]
  constructor
  · refine ⟨⟨⟨by linarith, by linarith⟩, by linarith⟩, by linarith⟩
  · have hx : ¬ (w.position.x ≤ w.position.x - 1) := by linarith
    simp [hx]

theorem c8_center_in_corner_out_witness :
    check_mouse_condition (Point.new ((10:ℚ) + 100 / 2) ((10:ℚ) + 50 / 2))
      ⟨true, Rectangle.new 0 0 100 50, Point.new 10 10⟩ = true ∧
    check_mouse_condition (Point.new ((10:ℚ) - 1) ((10:ℚ) - 1))
      ⟨true, Rectangle.new 0 0 100 50, Point.new 10 10⟩ = false :=
  c8_center_in_corner_out ⟨true, Rectangle.new 0 0 100 50, Point.new 10 10⟩
    rfl (by norm_num [Rectangle.new]) (by norm_num [Rectangle.new])

/-- C3: for each of the six handlers, `handle_event` on a container whose
payload is not the handler's concrete payload type leaves the state unchanged
and returns `false` — for every possible callback, so the callback is never
invoked; the downcast failure is an ordinary `Except.error` handled locally. -/
theorem c3_wrong_payload_no_op (S : Type) (fc fm fs : PositionHandlerFunction S)
    (fd fu : MouseHandlerFunction S) (fg : GlobalMouseHandlerFunction S)
    (ctx : S) (box : EventBox) :
    (box.typeOf ≠ EventType.click →
      ClickEventHandler.handle_event ⟨fc⟩ ctx box = (ctx, false)) ∧
    (box.typeOf ≠ EventType.mouseDown →
      MouseDownEventHandler.handle_event ⟨fd⟩ ctx box = (ctx, false)) ∧
    (box.typeOf ≠ EventType.mouseUp →
      MouseUpEventHandler.handle_event ⟨fu⟩ ctx box = (ctx, false)) ∧
    (box.typeOf ≠ EventType.globalMouseUp →
      GlobalMouseUpEventHandler.handle_event ⟨fg⟩ ctx box = (ctx, false)) ∧
    (box.typeOf ≠ EventType.mouseMove →
      MouseMoveEventHandler.handle_event ⟨fm⟩ ctx box = (ctx, false)) ∧
    (box.typeOf ≠ EventType.scroll →
      ScrollEventHandler.handle_event ⟨fs⟩ ctx box = (ctx, false)) := by
  cases box <;>
    simp [EventBox.typeOf, ClickEventHandler.handle_event,
      MouseDownEventHandler.handle_event, MouseUpEventHandler.handle_event,
      GlobalMouseUpEventHandler.handle_event, MouseMoveEventHandler.handle_event,
      ScrollEventHandler.handle_event, EventBox.downcast_ref_click,
      EventBox.downcast_ref_mouse_down, EventBox.downcast_ref_mouse_up,
      EventBox.downcast_ref_global_mouse_up, EventBox.downcast_ref_mouse_move,
      EventBox.downcast_ref_scroll, Except.toOption]

theorem c3_wrong_payload_no_op_witness :
    MouseUpEventHandler.handle_event ⟨fun s _ => (s + 1, true)⟩ (0 : Nat)
      (EventBox.click ⟨Point.new 5 5⟩) = (0, false) :=
  (c3_wrong_payload_no_op Nat (fun s _ => (s + 1, true)) (fun s _ => (s + 1, true))
    (fun s _ => (s + 1, true)) (fun s _ => (s + 1, true)) (fun s _ => (s + 1, true))
    (fun s _ => s + 1) 0 (EventBox.click ⟨Point.new 5 5⟩)).2.2.1 (by decide)

/-- C4: each handler's `handles_event` holds exactly when the container's
payload type is that handler's concrete payload type, and for any given
container exactly one of the six handler kinds reports `true`. -/
theorem c4_handles_event_iff_type (S : Type) (hc : ClickEventHandler S)
    (hd : MouseDownEventHandler S) (hu : MouseUpEventHandler S)
    (hg : GlobalMouseUpEventHandler S) (hm : MouseMoveEventHandler S)
    (hs : ScrollEventHandler S) (box : EventBox) :
    (hc.handles_event box = true ↔ box.typeOf = EventType.click) ∧
    (hd.handles_event box = true ↔ box.typeOf = EventType.mouseDown) ∧
    (hu.handles_event box = true ↔ box.typeOf = EventType.mouseUp) ∧
    (hg.handles_event box = true ↔ box.typeOf = EventType.globalMouseUp) ∧
    (hm.handles_event box = true ↔ box.typeOf = EventType.mouseMove) ∧
    (hs.handles_event box = true ↔ box.typeOf = EventType.scroll) ∧
    List.count true
      [hc.handles_event box, hd.handles_event box, hu.handles_event box,
        hg.handles_event box, hm.handles_event box, hs.handles_event box] = 1 := by
  cases box <;>
    simp [ClickEventHandler.handles_event, MouseDownEventHandler.handles_event,
      MouseUpEventHandler.handles_event, GlobalMouseUpEventHandler.handles_event,
      MouseMoveEventHandler.handles_event, ScrollEventHandler.handles_event,
      EventBox.is_type, EventBox.typeOf, List.count]

/-- C5: on a container holding a `MouseDownEvent` (resp. `MouseUpEvent`), the
mouse down (resp. mouse up) handler's `handle_event` is exactly one
application of the callback to the same state and `Mouse {button, x, y}` built
from the event's fields, and its result — updated state and boolean — is
precisely the callback's result. -/
theorem c5_mouse_down_up_adaptation (S : Type) (fd fu : MouseHandlerFunction S)
    (ctx : S) (d : MouseDownEvent) (u : MouseUpEvent) :
    MouseDownEventHandler.handle_event ⟨fd⟩ ctx (EventBox.mouseDown d) =
      fd ctx ⟨d.button, d.x, d.y⟩ ∧
    MouseUpEventHandler.handle_event ⟨fu⟩ ctx (EventBox.mouseUp u) =
      fu ctx ⟨u.button, u.x, u.y⟩ :=
  ⟨rfl, rfl⟩

/-- C6: on a container holding a `MouseMoveEvent`, the mouse move handler's
`handle_event` is exactly the callback applied to `Point {x, y}`; on a
container holding a `ScrollEvent`, the scroll handler's `handle_event` is
exactly the callback applied to `Point {delta.x, delta.y}` — in both cases
the callback's boolean is the result. -/
theorem c6_move_scroll_adaptation (S : Type) (fm fs : PositionHandlerFunction S)
    (ctx : S) (m : MouseMoveEvent) (s : ScrollEvent) :
    MouseMoveEventHandler.handle_event ⟨fm⟩ ctx (EventBox.mouseMove m) =
      fm ctx (Point.new m.x m.y) ∧
    ScrollEventHandler.handle_event ⟨fs⟩ ctx (EventBox.scroll s) =
      fs ctx (Point.new s.delta.x s.delta.y) :=
  ⟨rfl, rfl⟩

/-- C7: each of the six registration methods returns the same widget (its
out-of-scope base state unchanged) with exactly one handler appended to its
handler set — the handler of the matching kind wrapping exactly the given
callback; being a total function, registration has no failure path. -/
theorem c7_registration_appends_one_handler (S B : Type) (w : Widget S B)
    (fc fm fs : S → Point → S × Bool) (fd fu : S → Mouse → S × Bool)
    (fg : S → Mouse → S) :
    MouseHandler.on_click w fc =
      ⟨w.base, w.handlers ++ [EventHandlerImpl.click ⟨fc⟩]⟩ ∧
    MouseHandler.on_mouse_down w fd =
      ⟨w.base, w.handlers ++ [EventHandlerImpl.mouseDown ⟨fd⟩]⟩ ∧
    MouseHandler.on_mouse_up w fu =
      ⟨w.base, w.handlers ++ [EventHandlerImpl.mouseUp ⟨fu⟩]⟩ ∧
    MouseHandler.on_global_mouse_up w fg =
      ⟨w.base, w.handlers ++ [EventHandlerImpl.globalMouseUp ⟨fg⟩]⟩ ∧
    MouseHandler.on_mouse_move w fm =
      ⟨w.base, w.handlers ++ [EventHandlerImpl.mouseMove ⟨fm⟩]⟩ ∧
    MouseHandler.on_scroll w fs =
      ⟨w.base, w.handlers ++ [EventHandlerImpl.scroll ⟨fs⟩]⟩ :=
  ⟨rfl, rfl, rfl, rfl, rfl, rfl⟩

/-- C10: `handles_event` of every handler kind is a function of the
container's type tag alone — two containers with the same tag and two handlers
with arbitrary (different) callbacks give the same boolean; in the embedding
it receives no state and returns no state, so it has no effect beyond its
result. -/
theorem c10_handles_event_pure (S : Type) (f1 f2 g1 g2 : PositionHandlerFunction S)
    (d1 d2 u1 u2 : MouseHandlerFunction S) (k1 k2 : GlobalMouseHandlerFunction S)
    (b1 b2 : EventBox) (h : b1.typeOf = b2.typeOf) :
    ClickEventHandler.handles_event ⟨f1⟩ b1 = ClickEventHandler.handles_event ⟨f2⟩ b2 ∧
    MouseDownEventHandler.handles_event ⟨d1⟩ b1 =
      MouseDownEventHandler.handles_event ⟨d2⟩ b2 ∧
    MouseUpEventHandler.handles_event ⟨u1⟩ b1 =
      MouseUpEventHandler.handles_event ⟨u2⟩ b2 ∧
    GlobalMouseUpEventHandler.handles_event ⟨k1⟩ b1 =
      GlobalMouseUpEventHandler.handles_event ⟨k2⟩ b2 ∧
    MouseMoveEventHandler.handles_event ⟨g1⟩ b1 =
      MouseMoveEventHandler.handles_event ⟨g2⟩ b2 ∧
    ScrollEventHandler.handles_event ⟨g1⟩ b1 = ScrollEventHandler.handles_event ⟨g2⟩ b2 := by
  simp [ClickEventHandler.handles_event, MouseDownEventHandler.handles_event,
    MouseUpEventHandler.handles_event, GlobalMouseUpEventHandler.handles_event,
    MouseMoveEventHandler.handles_event, ScrollEventHandler.handles_event,
    EventBox.is_type, h]

theorem c10_handles_event_pure_witness :
    ClickEventHandler.handles_event (S := Nat) ⟨fun s _ => (s + 1, true)⟩
        (EventBox.mouseMove ⟨0, 0⟩) =
      ClickEventHandler.handles_event (S := Nat) ⟨fun s _ => (s, false)⟩
        (EventBox.mouseMove ⟨5, 7⟩) ∧
    MouseDownEventHandler.handles_event (S := Nat) ⟨fun s _ => (s + 1, true)⟩
        (EventBox.mouseMove ⟨0, 0⟩) =
      MouseDownEventHandler.handles_event (S := Nat) ⟨fun s _ => (s, false)⟩
        (EventBox.mouseMove ⟨5, 7⟩) ∧
    MouseUpEventHandler.handles_event (S := Nat) ⟨fun s _ => (s + 1, true)⟩
        (EventBox.mouseMove ⟨0, 0⟩) =
      MouseUpEventHandler.handles_event (S := Nat) ⟨fun s _ => (s, false)⟩
        (EventBox.mouseMove ⟨5, 7⟩) ∧
    GlobalMouseUpEventHandler.handles_event (S := Nat) ⟨fun s _ => s + 1⟩
        (EventBox.mouseMove ⟨0, 0⟩) =
      GlobalMouseUpEventHandler.handles_event (S := Nat) ⟨fun s _ => s⟩
        (EventBox.mouseMove ⟨5, 7⟩) ∧
    MouseMoveEventHandler.handles_event (S := Nat) ⟨fun s _ => (s + 1, true)⟩
        (EventBox.mouseMove ⟨0, 0⟩) =
      MouseMoveEventHandler.handles_event (S := Nat) ⟨fun s _ => (s, false)⟩
        (EventBox.mouseMove ⟨5, 7⟩) ∧
    ScrollEventHandler.handles_event (S := Nat) ⟨fun s _ => (s + 1, true)⟩
        (EventBox.mouseMove ⟨0, 0⟩) =
      ScrollEventHandler.handles_event (S := Nat) ⟨fun s _ => (s + 1, true)⟩
        (EventBox.mouseMove ⟨5, 7⟩) :=
  c10_handles_event_pure Nat (fun s _ => (s + 1, true)) (fun s _ => (s, false))
    (fun s _ => (s + 1, true)) (fun s _ => (s + 1, true)) (fun s _ => (s + 1, true))
    (fun s _ => (s, false)) (fun s _ => (s + 1, true)) (fun s _ => (s, false))
    (fun s _ => s + 1) (fun s _ => s)
    (EventBox.mouseMove ⟨0, 0⟩) (EventBox.mouseMove ⟨5, 7⟩) rfl
